import Mathlib

/-!
# Verification of `surveyor.py` (cb-response-surveyor)

Shallow embedding of the query-aggregation and deduplication engine of
`surveyor.py`.  The remote Cb Response backend is modelled as a function from
a filter string to either a list of process records or a raised exception
(`Except.error` carries the exception's description).  An operator-initiated
KeyboardInterrupt is modelled by an optional budget: `some n` means the
interrupt arrives after `n` process records have been consumed inside the
`try` block; `none` means no interrupt occurs.
-/

set_option autoImplicit false

namespace Surveyor

/-- A process record as returned by the backend: the four fields the engine
projects (`proc.hostname`, `proc.username`, `proc.path`, `proc.cmdline`). -/
structure ProcessRecord where
  hostname : String
  username : String
  path : String
  cmdline : String
deriving DecidableEq, Repr

/-- The backend (`cb_conn.select(Process).where(query)`): a filter string
yields either the matched records or a raised exception message. -/
abbrev Backend := String → Except String (List ProcessRecord)

deriving instance DecidableEq for Except

/-- Python's `str.lower()`: lower-case every character. -/
def pyLower (s : String) : String :=
  ⟨s.data.map Char.toLower⟩

/-- Python's `str.strip()`: remove leading and trailing whitespace. -/
def pyStrip (s : String) : String :=
  ⟨((s.data.dropWhile Char.isWhitespace).reverse.dropWhile Char.isWhitespace).reverse⟩

/-- The deduplication key and row payload:
`(hostname.lower(), username.lower(), path, cmdline)`. -/
abbrev ResultTuple := String × String × String × String

/-- `surveyor.py` lines 48-51 / 69-72: project one record to the tuple added
to the `results` set. -/
def resultTuple (p : ProcessRecord) : ResultTuple :=
  (pyLower p.hostname, pyLower p.username, p.path, p.cmdline)

/-- Python's `set.add`: a set with insertion order made explicit, as a
duplicate-free list (the element is appended unless already present). -/
def pySetAdd {α : Type} [DecidableEq α] (s : List α) (a : α) : List α :=
  if a ∈ s then s else s ++ [a]

/-- Folding `set.add` over a list starting from the empty set `set()`. -/
def pySetOfList {α : Type} [DecidableEq α] (l : List α) : List α :=
  l.foldl pySetAdd []

/-- Python 2 `str + x` where `x` may be `None` (the declared default of
`query_base`): concatenating a string with `None` raises a TypeError. -/
def pyStrAddOpt (a : String) : Option String → Except String String
  | some b => .ok (a ++ b)
  | none => .error "TypeError: cannot concatenate str and NoneType objects"

/-- Python's `sep.join(parts)`. -/
def pyJoin (sep : String) : List String → String
  | [] => ""
  | [x] => x
  | x :: y :: xs => x ++ sep ++ pyJoin sep (y :: xs)

/-- `surveyor.py` line 65: the per-field query of `nested_process_search`,
`'(' + ' OR '.join('%s:%s' % (search_field, term) for term in terms) + ')'`. -/
def fieldQuery (search_field : String) (terms : List String) : String :=
  "(" ++ pyJoin " OR " (terms.map fun term => search_field ++ ":" ++ term) ++ ")"

/-- `surveyor.py` lines 38-55, `process_search`: append `query_base` to the
query (a TypeError if `query_base` is `None`), run the backend, and fold the
records into a set of result tuples.  A KeyboardInterrupt after `interrupt`
records is caught and the set gathered so far is returned; any other backend
exception propagates. -/
def process_search (backend : Backend) (query : String)
    (query_base : Option String := none) (interrupt : Option Nat := none) :
    Except String (List ResultTuple) :=
  match pyStrAddOpt query query_base with
  | .error e => .error e
  | .ok q =>
    match backend q with
    | .error e => .error e
    | .ok procs =>
      let consumed := match interrupt with
        | none => procs
        | some n => procs.take n
      .ok (pySetOfList (consumed.map resultTuple))

/-- `surveyor.py` lines 63-72, the loop of `nested_process_search`: for each
`(search_field, terms)` entry of the criteria mapping, build the per-field
query, append `query_base` (TypeError if it is `None` — this now happens
inside the `try`, once per field), run the backend and consume its records.
Returns the records consumed in order; an interrupt budget of `n` stops
consumption after `n` records and skips the remaining fields. -/
def nestedConsume (backend : Backend) (query_base : Option String) :
    List (String × List String) → Option Nat → Except String (List ProcessRecord)
  | [], _ => .ok []
  | _ :: _, some 0 => .ok []
  | (f, ts) :: rest, none =>
    match pyStrAddOpt (fieldQuery f ts) query_base with
    | .error e => .error e
    | .ok q =>
      match backend q with
      | .error e => .error e
      | .ok procs => (nestedConsume backend query_base rest none).map (procs ++ ·)
  | (f, ts) :: rest, some (n + 1) =>
    match pyStrAddOpt (fieldQuery f ts) query_base with
    | .error e => .error e
    | .ok q =>
      match backend q with
      | .error e => .error e
      | .ok procs =>
        if n + 1 ≤ procs.length then .ok (procs.take (n + 1))
        else (nestedConsume backend query_base rest (some (n + 1 - procs.length))).map
          (procs ++ ·)

/-- `surveyor.py` lines 57-76, `nested_process_search`: one search per
criteria field, all consumed records deduplicated into a single set per
program.  A KeyboardInterrupt is caught and the partial set returned; other
exceptions propagate. -/
def nested_process_search (backend : Backend) (criteria : List (String × List String))
    (query_base : Option String := none) (interrupt : Option Nat := none) :
    Except String (List ResultTuple) :=
  (nestedConsume backend query_base criteria interrupt).map
    fun procs => pySetOfList (procs.map resultTuple)

/-- The queries issued by `nested_process_search` for one program: one filter
string per criteria field (lines 64-66), not one combined filter per
program. -/
def nestedQueries (criteria : List (String × List String)) (query_base : String) :
    List String :=
  criteria.map fun fts => fieldQuery fts.1 fts.2 ++ query_base

/-- Python truthiness of `args.days` / `args.minutes` (an optional int):
`None` and `0` are falsy. -/
def intTruthy : Option Int → Bool
  | none => false
  | some n => n != 0

/-- `surveyor.py` lines 117-121: the time-window fragment.
`query_base = ''`, then `' start:-%dm' % (args.days*1440)` if `args.days` is
truthy, else `' start:-%dm' % args.minutes` if `args.minutes` is truthy. -/
def build_query_base (days minutes : Option Int) : String :=
  if intTruthy days then " start:-" ++ toString (days.getD 0 * 1440) ++ "m"
  else if intTruthy minutes then " start:-" ++ toString (minutes.getD 0) ++ "m"
  else ""

/-- One CSV data row, `[r[0], r[1], r[2], r[3], label, kind]` (lines 151,
163, 182): the result tuple plus the source label (`program` column) and the
source kind (`source` column). -/
structure Row where
  tuple : ResultTuple
  program : String
  source : String
deriving DecidableEq, Repr

/-- The CSV header row (line 140). -/
def header : List String :=
  ["endpoint", "username", "process_path", "cmdline", "program", "source"]

/-- The content of the output CSV: the header followed by one encoded line
per emitted row (lines 140, 151-153, 162-165, 181-184). -/
def outputCsv (rows : List Row) : List (List String) :=
  header :: rows.map fun r =>
    [r.tuple.1, r.tuple.2.1, r.tuple.2.2.1, r.tuple.2.2.2, r.program, r.source]

/-- `surveyor.py` lines 147-153, the `--query` mode of `main`: one
`process_search` for the given query, one row per tuple in the result set
with source label = the query text and source kind `"query"`.  The second
component is the uncaught exception aborting the run, if any. -/
def surveyQuery (backend : Backend) (query : String) (query_base : String) :
    List Row × Option String :=
  match process_search backend query (some query_base) none with
  | .error e => ([], some e)
  | .ok s => (s.map fun t => Row.mk t query "query", none)

/-- The backend queries issued by the `--iocfile` mode (lines 157-159 plus
the `query += query_base` of `process_search`): one per line of the IOC
file, `'%s:%s' % (ioctype, line.strip())` followed by the window. -/
def iocQueries (ioctype : String) (rawLines : List String) (query_base : String) :
    List String :=
  rawLines.map fun line => ioctype ++ ":" ++ pyStrip line ++ query_base

/-- `surveyor.py` lines 154-165, the `--iocfile` mode of `main`: for each
line of the IOC file (blank or not), strip it, search `"<ioctype>:<ioc>"`,
and emit one row per tuple with source label = the stripped value and source
kind `"ioc"`.  Rows written before an uncaught exception are kept; the
exception aborts the remaining lines. -/
def surveyIoc (backend : Backend) (ioctype : String) (rawLines : List String)
    (query_base : String) : List Row × Option String :=
  match rawLines with
  | [] => ([], none)
  | line :: rest =>
    let ioc := pyStrip line
    match process_search backend (ioctype ++ ":" ++ ioc) (some query_base) none with
    | .error e => ([], some e)
    | .ok s =>
      let rows := s.map fun t => Row.mk t ioc "ioc"
      let res := surveyIoc backend ioctype rest query_base
      (rows ++ res.1, res.2)

/-- A parsed definition file: program name → criteria (field → terms),
mappings modelled as association lists in iteration order. -/
abbrev Programs := List (String × List (String × List String))

/-- `surveyor.py` lines 176-184: the per-program loop over one definition
file whose basename-without-extension is `source`: one
`nested_process_search` per program, one row per tuple with source label =
the program name. -/
def surveyPrograms (backend : Backend) (source : String) (programs : Programs)
    (query_base : String) : List Row × Option String :=
  match programs with
  | [] => ([], none)
  | (program, criteria) :: rest =>
    match nested_process_search backend criteria (some query_base) none with
    | .error e => ([], some e)
    | .ok s =>
      let rows := s.map fun t => Row.mk t program source
      let res := surveyPrograms backend source rest query_base
      (rows ++ res.1, res.2)

/-- `surveyor.py` lines 166-184, the definition-file modes of `main`: each
file is given as its basename-without-extension paired with the outcome of
`json.load` (`Except.error` models a raised parse exception).  A parse
exception is not caught anywhere, so it aborts the whole survey; rows
already written are kept. -/
def surveyDefinitions (backend : Backend)
    (files : List (String × Except String Programs)) (query_base : String) :
    List Row × Option String :=
  match files with
  | [] => ([], none)
  | (source, parsed) :: rest =>
    match parsed with
    | .error e => ([], some e)
    | .ok programs =>
      let res := surveyPrograms backend source programs query_base
      match res.2 with
      | some e => (res.1, some e)
      | none =>
        let more := surveyDefinitions backend rest query_base
        (res.1 ++ more.1, more.2)

/-! ## Helper lemmas about the set model and interruption -/

theorem mem_foldl_pySetAdd {α : Type} [DecidableEq α] (l : List α) (acc : List α) (a : α) :
    a ∈ l.foldl pySetAdd acc ↔ a ∈ acc ∨ a ∈ l := by
  induction l generalizing acc with
  | nil => simp
  | cons x xs ih =>
    rw [List.foldl_cons, ih]
    unfold pySetAdd
    by_cases h : x ∈ acc
    · simp only [if_pos h, List.mem_cons]
      constructor
      · tauto
      · rintro (ha | rfl | ha) <;> tauto
    · simp only [if_neg h, List.mem_append, List.mem_singleton, List.mem_cons]
      tauto

theorem nodup_foldl_pySetAdd {α : Type} [DecidableEq α] (l : List α) (acc : List α)
    (h : acc.Nodup) : (l.foldl pySetAdd acc).Nodup := by
  induction l generalizing acc with
  | nil => simpa
  | cons x xs ih =>
    rw [List.foldl_cons]
    apply ih
    unfold pySetAdd
    by_cases hx : x ∈ acc
    · simpa [hx]
    · simp [hx, List.nodup_append, h]

theorem mem_pySetOfList {α : Type} [DecidableEq α] (l : List α) (a : α) :
    a ∈ pySetOfList l ↔ a ∈ l := by
  unfold pySetOfList
  rw [mem_foldl_pySetAdd]
  simp

theorem nodup_pySetOfList {α : Type} [DecidableEq α] (l : List α) :
    (pySetOfList l).Nodup :=
  nodup_foldl_pySetAdd l [] List.nodup_nil

/-- Interrupting `nestedConsume` after `n` records yields exactly the length-`n`
prefix of what an uninterrupted run would have consumed. -/
theorem nestedConsume_take (backend : Backend) (qb : Option String)
    (criteria : List (String × List String)) :
    ∀ (n : Nat) (all : List ProcessRecord),
      nestedConsume backend qb criteria none = .ok all →
      nestedConsume backend qb criteria (some n) = .ok (all.take n) := by
  induction criteria with
  | nil =>
    intro n all h
    simp only [nestedConsume, Except.ok.injEq] at h
    subst h
    simp [nestedConsume]
  | cons ft rest ih =>
    obtain ⟨f, ts⟩ := ft
    intro n all h
    cases n with
    | zero =>
      simp [nestedConsume]
    | succ k =>
      simp only [nestedConsume] at h ⊢
      cases hq : pyStrAddOpt (fieldQuery f ts) qb with
      | error e => simp [hq] at h
      | ok q =>
        cases hb : backend q with
        | error e => simp [hq, hb] at h
        | ok procs =>
          cases hr : nestedConsume backend qb rest none with
          | error e => simp [hq, hb, hr, Except.map] at h
          | ok more =>
            simp only [hq, hb, hr, Except.map, Except.ok.injEq] at h ⊢
            subst h
            by_cases hlen : k + 1 ≤ procs.length
            · rw [if_pos hlen, List.take_append_of_le_length hlen]
            · rw [if_neg hlen, ih _ more hr]
              simp only [Except.map, Except.ok.injEq]
              have hk : k + 1 = procs.length + (k + 1 - procs.length) := by omega
              rw [hk, List.take_append, Nat.add_sub_cancel_left]

/-! ## Claim C5: the time-window fragment -/

/-- C5, as stated, is false at a zero day-count: with `--days 0 --minutes 90`
both counts are supplied, but the fragment encodes 90 minutes, not the
day-count's `0*1440`; Python truthiness treats a zero count as absent. -/
theorem c5_counterexample :
    build_query_base (some 0) (some 90) = " start:-90m" ∧
    build_query_base (some 0) (some 90) ≠ " start:-" ++ toString ((0 : Int) * 1440) ++ "m" := by
  decide

/-- C5 (amended): for a nonzero day-count the fragment is
`" start:-<days*1440>m"` and the day-count takes precedence over any
minute-count; for a nonzero minute-count with no truthy day-count it is
`" start:-<minutes>m"`; when neither count is truthy (absent or zero) it is
the empty string. -/
theorem c5_amended :
    (∀ (d : Int) (m : Option Int), d ≠ 0 →
      build_query_base (some d) m = " start:-" ++ toString (d * 1440) ++ "m") ∧
    (∀ (m : Int) (d : Option Int), m ≠ 0 → intTruthy d = false →
      build_query_base d (some m) = " start:-" ++ toString m ++ "m") ∧
    (∀ (d m : Option Int), intTruthy d = false → intTruthy m = false →
      build_query_base d m = "") := by
  refine ⟨?_, ?_, ?_⟩
  · intro d m hd
    have ht : intTruthy (some d) = true := by simp [intTruthy, hd]
    simp [build_query_base, ht]
  · intro m d hm hd
    have ht : intTruthy (some m) = true := by simp [intTruthy, hm]
    simp [build_query_base, hd, ht]
  · intro d m hd hm
    simp [build_query_base, hd, hm]

theorem c5_amended_witness :
    build_query_base (some 1) none = " start:-1440m" ∧
    build_query_base none (some 90) = " start:-90m" ∧
    build_query_base none none = "" :=
  ⟨(c5_amended.1 1 none (by decide)).trans (by decide),
   (c5_amended.2.1 90 none (by decide) (by decide)).trans (by decide),
   c5_amended.2.2 none none (by decide) (by decide)⟩

/-! ## Claim C6: case-insensitive deduplication -/

/-- C6: two process records that differ only in the letter case of hostname
and/or username (same characters up to case, identical path and command
line) project to the same result tuple, so the `results` set keeps one
element for both; path and command line are carried into the tuple
verbatim. -/
theorem c6_case_fold_dedup (r1 r2 : ProcessRecord)
    (hh : r1.hostname.data.map Char.toLower = r2.hostname.data.map Char.toLower)
    (hu : r1.username.data.map Char.toLower = r2.username.data.map Char.toLower)
    (hp : r1.path = r2.path) (hc : r1.cmdline = r2.cmdline) :
    resultTuple r1 = resultTuple r2 ∧
    pySetOfList ([r1, r2].map resultTuple) = [resultTuple r1] ∧
    (resultTuple r1).2.2.1 = r1.path ∧ (resultTuple r1).2.2.2 = r1.cmdline := by
  have heq : resultTuple r1 = resultTuple r2 := by
    unfold resultTuple pyLower
    rw [hh, hu, hp, hc]
  refine ⟨heq, ?_, rfl, rfl⟩
  simp [pySetOfList, pySetAdd, List.foldl, ← heq]

theorem c6_case_fold_dedup_witness :
    resultTuple ⟨"WIN-1", "Alice", "C:\\evil.exe", "evil -X"⟩ =
      resultTuple ⟨"win-1", "alice", "C:\\evil.exe", "evil -X"⟩ ∧
    pySetOfList ([(⟨"WIN-1", "Alice", "C:\\evil.exe", "evil -X"⟩ : ProcessRecord),
        ⟨"win-1", "alice", "C:\\evil.exe", "evil -X"⟩].map resultTuple) =
      [resultTuple ⟨"WIN-1", "Alice", "C:\\evil.exe", "evil -X"⟩] ∧
    (resultTuple (⟨"WIN-1", "Alice", "C:\\evil.exe", "evil -X"⟩ : ProcessRecord)).2.2.1 =
      "C:\\evil.exe" ∧
    (resultTuple (⟨"WIN-1", "Alice", "C:\\evil.exe", "evil -X"⟩ : ProcessRecord)).2.2.2 =
      "evil -X" :=
  c6_case_fold_dedup ⟨"WIN-1", "Alice", "C:\\evil.exe", "evil -X"⟩
    ⟨"win-1", "alice", "C:\\evil.exe", "evil -X"⟩ (by decide) (by decide) rfl rfl

/-! ## Claim C10: the `query_base=None` default is unusable -/

/-- C10: with the declared default `query_base = None`, `process_search`
raises a TypeError on `query += query_base` for every query (before the
backend is ever consulted), and `nested_process_search` does the same for
every nonempty criteria mapping once the first per-field query is built; yet
an absent time window is represented by the empty string, not by the default:
`build_query_base` yields `""` when neither bound is given, so a string is
always available. -/
theorem c10_query_base_precondition :
    (∀ (backend : Backend) (query : String) (interrupt : Option Nat),
      process_search backend query none interrupt =
        .error "TypeError: cannot concatenate str and NoneType objects") ∧
    (∀ (backend : Backend) (f : String) (ts : List String)
      (rest : List (String × List String)),
      nested_process_search backend ((f, ts) :: rest) none none =
        .error "TypeError: cannot concatenate str and NoneType objects") ∧
    build_query_base none none = "" := by
  refine ⟨?_, ?_, rfl⟩
  · intro backend query interrupt
    simp [process_search, pyStrAddOpt]
  · intro backend f ts rest
    simp [nested_process_search, nestedConsume, pyStrAddOpt, Except.map]

/-! ## Claim C7: interruption returns partial results -/

/-- C7: an operator interrupt after `n` consumed records makes
`process_search` stop pulling and return (`.ok`, not an error) the
deduplicated set of the records consumed so far — the length-`n` prefix of
what the backend returned; `nested_process_search` does the same with the
prefix of the records an uninterrupted run over all fields would consume. -/
theorem c7_interrupt_partial_results (backend : Backend) (query query_base : String)
    (n : Nat) (procs : List ProcessRecord)
    (hb : backend (query ++ query_base) = .ok procs) :
    process_search backend query (some query_base) (some n) =
      .ok (pySetOfList ((procs.take n).map resultTuple)) ∧
    (∀ (criteria : List (String × List String)) (all : List ProcessRecord),
      nestedConsume backend (some query_base) criteria none = .ok all →
      nested_process_search backend criteria (some query_base) (some n) =
        .ok (pySetOfList ((all.take n).map resultTuple))) := by
  constructor
  · simp [process_search, pyStrAddOpt, hb]
  · intro criteria all h
    simp [nested_process_search, nestedConsume_take backend (some query_base) criteria n all h,
      Except.map]

def c7Backend : Backend := fun q =>
  if q = "process_name:chrome.exe start:-1440m" then
    .ok [⟨"HOST-A", "Root", "/a", "a 1"⟩, ⟨"HOST-B", "Root", "/b", "b 2"⟩]
  else .ok []

theorem c7_interrupt_partial_results_witness :
    process_search c7Backend "process_name:chrome.exe" (some " start:-1440m") (some 1) =
      .ok [("host-a", "root", "/a", "a 1")] :=
  ((c7_interrupt_partial_results c7Backend "process_name:chrome.exe" " start:-1440m" 1
    [⟨"HOST-A", "Root", "/a", "a 1"⟩, ⟨"HOST-B", "Root", "/b", "b 2"⟩] (by decide)).1).trans
    (by decide)

/-! ## Claim C8: round-trip and per-source uniqueness -/

/-- C8: when the backend answers the query-mode filter with `procs`, the run
does not abort, every emitted row's tuple is the projection of at least one
record in `procs` (with the query as label and kind `"query"`), and no two
rows of that source coincide. -/
theorem c8_roundtrip (backend : Backend) (query query_base : String)
    (procs : List ProcessRecord)
    (hb : backend (query ++ query_base) = .ok procs) :
    (surveyQuery backend query query_base).2 = none ∧
    (∀ row ∈ (surveyQuery backend query query_base).1,
      row.program = query ∧ row.source = "query" ∧
      ∃ p ∈ procs, resultTuple p = row.tuple) ∧
    (surveyQuery backend query query_base).1.Nodup := by
  have hps : process_search backend query (some query_base) none =
      .ok (pySetOfList (procs.map resultTuple)) := by
    simp [process_search, pyStrAddOpt, hb]
  refine ⟨?_, ?_, ?_⟩
  · simp [surveyQuery, hps]
  · intro row hrow
    simp only [surveyQuery, hps, List.mem_map] at hrow
    obtain ⟨t, ht, rfl⟩ := hrow
    rw [mem_pySetOfList, List.mem_map] at ht
    obtain ⟨p, hp, rfl⟩ := ht
    exact ⟨rfl, rfl, p, hp, rfl⟩
  · simp only [surveyQuery, hps]
    exact (nodup_pySetOfList _).map fun a b h => congrArg Row.tuple h

def c8Backend : Backend := fun q =>
  if q = "process_name:evil.exe start:-90m" then
    .ok [⟨"WIN-1", "Alice", "C:\\evil.exe", "evil -x"⟩,
         ⟨"win-1", "alice", "C:\\evil.exe", "evil -x"⟩]
  else .ok []

theorem c8_roundtrip_witness :
    (surveyQuery c8Backend "process_name:evil.exe" " start:-90m").2 = none ∧
    (surveyQuery c8Backend "process_name:evil.exe" " start:-90m").1.Nodup ∧
    (surveyQuery c8Backend "process_name:evil.exe" " start:-90m").1.length = 1 :=
  ⟨(c8_roundtrip c8Backend "process_name:evil.exe" " start:-90m"
      [⟨"WIN-1", "Alice", "C:\\evil.exe", "evil -x"⟩,
       ⟨"win-1", "alice", "C:\\evil.exe", "evil -x"⟩] (by decide)).1,
   (c8_roundtrip c8Backend "process_name:evil.exe" " start:-90m"
      [⟨"WIN-1", "Alice", "C:\\evil.exe", "evil -x"⟩,
       ⟨"win-1", "alice", "C:\\evil.exe", "evil -x"⟩] (by decide)).2.2,
   by decide⟩

/-! ## Claim C9: ad-hoc query mode -/

/-- C9: query mode consults the backend only at `query ++ query_base` (the
filter is passed through unchanged except for the appended window), emits
one row per deduplicated tuple labelled with the query text and kind
`"query"`, and with zero matches the output file is exactly the header. -/
theorem c9_query_mode (backend : Backend) (query query_base : String) :
    (∀ b2 : Backend, b2 (query ++ query_base) = backend (query ++ query_base) →
      surveyQuery b2 query query_base = surveyQuery backend query query_base) ∧
    (∀ procs : List ProcessRecord, backend (query ++ query_base) = .ok procs →
      surveyQuery backend query query_base =
        ((pySetOfList (procs.map resultTuple)).map fun t => Row.mk t query "query", none)) ∧
    (backend (query ++ query_base) = .ok [] →
      outputCsv (surveyQuery backend query query_base).1 = [header]) := by
  refine ⟨?_, ?_, ?_⟩
  · intro b2 h
    simp [surveyQuery, process_search, pyStrAddOpt, h]
  · intro procs hb
    simp [surveyQuery, process_search, pyStrAddOpt, hb]
  · intro hb
    simp [surveyQuery, process_search, pyStrAddOpt, hb, pySetOfList, outputCsv]

theorem c9_query_mode_witness :
    outputCsv (surveyQuery (fun _ => .ok []) "process_name:evil.exe" " start:-60m").1 =
      [["endpoint", "username", "process_path", "cmdline", "program", "source"]] :=
  ((c9_query_mode (fun _ => .ok []) "process_name:evil.exe" " start:-60m").2.2 rfl).trans
    (by decide)

/-! ## Claim C1: per-program filter construction -/

/-- `nestedConsume` consults the backend only at the per-field filter
strings listed by `nestedQueries`. -/
theorem nestedConsume_congr (b1 b2 : Backend) (qb : String)
    (criteria : List (String × List String)) :
    ∀ i : Option Nat,
      (∀ q ∈ nestedQueries criteria qb, b1 q = b2 q) →
      nestedConsume b1 (some qb) criteria i = nestedConsume b2 (some qb) criteria i := by
  induction criteria with
  | nil =>
    intro i _
    cases i <;> simp [nestedConsume]
  | cons ft rest ih =>
    obtain ⟨f, ts⟩ := ft
    intro i h
    have hq : b1 (fieldQuery f ts ++ qb) = b2 (fieldQuery f ts ++ qb) := by
      apply h
      simp [nestedQueries]
    have hrest : ∀ q ∈ nestedQueries rest qb, b1 q = b2 q := by
      intro q hq'
      apply h
      simp only [nestedQueries, List.map_cons, List.mem_cons]
      right
      simpa [nestedQueries] using hq'
    have ih2 : ∀ j : Option Nat,
        nestedConsume b1 (some qb) rest j = nestedConsume b2 (some qb) rest j :=
      fun j => ih j hrest
    cases i with
    | none =>
      simp only [nestedConsume, pyStrAddOpt]
      rw [hq]
      cases hb : b2 (fieldQuery f ts ++ qb) with
      | error e => rfl
      | ok procs => rw [ih none hrest]
    | some n =>
      cases n with
      | zero => simp [nestedConsume]
      | succ k =>
        simp only [nestedConsume, pyStrAddOpt]
        rw [hq]
        cases hb : b2 (fieldQuery f ts ++ qb) with
        | error e => rfl
        | ok procs => simp only [ih2]

/-- C1, as stated, is false: for criteria `{f1:[a,b], f2:[c]}` the code
issues two separate filters, one per field, and never the single combined
filter `"(f1:a OR f1:b) (f2:c)"` + window — a backend that only matches the
combined filter yields an empty result set. -/
theorem c1_counterexample :
    nestedQueries [("f1", ["a", "b"]), ("f2", ["c"])] " start:-1440m" =
      ["(f1:a OR f1:b) start:-1440m", "(f2:c) start:-1440m"] ∧
    nestedQueries [("f1", ["a", "b"]), ("f2", ["c"])] " start:-1440m" ≠
      ["(f1:a OR f1:b) (f2:c) start:-1440m"] ∧
    nested_process_search
      (fun q => if q = "(f1:a OR f1:b) (f2:c) start:-1440m"
        then .ok [⟨"H", "U", "/p", "c"⟩] else .ok [])
      [("f1", ["a", "b"]), ("f2", ["c"])] (some " start:-1440m") none = .ok [] := by
  refine ⟨by decide, by decide, by decide⟩

/-- C1 (amended): for a program with criteria `{f1:[a,b], f2:[c]}` the code
builds one filter per field — `"(f1:a OR f1:b)"` + window and `"(f2:c)"` +
window — issues them as separate searches, and unions the records of both
into the program's single deduplicated result set; the backend is consulted
only at those per-field filters. -/
theorem c1_amended (backend : Backend) (f1 f2 a b c qb : String)
    (p1 p2 : List ProcessRecord)
    (h1 : backend ("(" ++ f1 ++ ":" ++ a ++ " OR " ++ f1 ++ ":" ++ b ++ ")" ++ qb) = .ok p1)
    (h2 : backend ("(" ++ f2 ++ ":" ++ c ++ ")" ++ qb) = .ok p2) :
    nestedQueries [(f1, [a, b]), (f2, [c])] qb =
      ["(" ++ f1 ++ ":" ++ a ++ " OR " ++ f1 ++ ":" ++ b ++ ")" ++ qb,
       "(" ++ f2 ++ ":" ++ c ++ ")" ++ qb] ∧
    nested_process_search backend [(f1, [a, b]), (f2, [c])] (some qb) none =
      .ok (pySetOfList ((p1 ++ p2).map resultTuple)) ∧
    (∀ b1 b2 : Backend,
      (∀ q ∈ nestedQueries [(f1, [a, b]), (f2, [c])] qb, b1 q = b2 q) →
      nested_process_search b1 [(f1, [a, b]), (f2, [c])] (some qb) none =
        nested_process_search b2 [(f1, [a, b]), (f2, [c])] (some qb) none) := by
  have e1 : fieldQuery f1 [a, b] ++ qb =
      "(" ++ f1 ++ ":" ++ a ++ " OR " ++ f1 ++ ":" ++ b ++ ")" ++ qb := by
    simp [fieldQuery, pyJoin, String.append_assoc]
  have e2 : fieldQuery f2 [c] ++ qb = "(" ++ f2 ++ ":" ++ c ++ ")" ++ qb := by
    simp [fieldQuery, pyJoin, String.append_assoc]
  refine ⟨?_, ?_, ?_⟩
  · simp [nestedQueries, e1, e2]
  · rw [← e1] at h1
    rw [← e2] at h2
    simp [nested_process_search, nestedConsume, pyStrAddOpt, h1, h2, Except.map]
  · intro b1 b2 h
    simp only [nested_process_search, nestedConsume_congr b1 b2 qb _ none h]

def c1Backend : Backend := fun q =>
  if q = "(f1:a OR f1:b) start:-1440m" then .ok [⟨"HOST-1", "User", "/p1", "c1"⟩]
  else if q = "(f2:c) start:-1440m" then .ok [⟨"HOST-2", "User", "/p2", "c2"⟩]
  else .ok []

theorem c1_amended_witness :
    nested_process_search c1Backend [("f1", ["a", "b"]), ("f2", ["c"])]
      (some " start:-1440m") none =
      .ok [("host-1", "user", "/p1", "c1"), ("host-2", "user", "/p2", "c2")] :=
  ((c1_amended c1Backend "f1" "f2" "a" "b" "c" " start:-1440m"
    [⟨"HOST-1", "User", "/p1", "c1"⟩] [⟨"HOST-2", "User", "/p2", "c2"⟩]
    (by decide) (by decide)).2.1).trans (by decide)

/-! ## Claim C3: blank indicator lines -/

/-- C3, as stated, is false: a whitespace-only line is stripped to `""` but
not skipped, so the backend query `"<ioctype>:" + window` IS issued for it —
a backend that only matches that degenerate filter returns a record, and the
blank line produces an output row (labelled with the empty indicator). -/
theorem c3_counterexample :
    surveyIoc
      (fun q => if q = "md5: start:-60m" then .ok [⟨"H", "U", "/p", "c"⟩] else .ok [])
      "md5" ["   "] " start:-60m" =
      ([Row.mk ("h", "u", "/p", "c") "" "ioc"], none) ∧
    iocQueries "md5" ["   "] " start:-60m" = ["md5: start:-60m"] := by
  refine ⟨by decide, by decide⟩

/-- C3 (amended): every line of the indicator file — blank or not — yields
the backend query `"<ioctype>:<stripped-line>"` plus the window, so a
whitespace-only line yields `"<ioctype>:"` plus the window; the IOC survey
consults the backend only at the queries listed by `iocQueries`. -/
theorem c3_amended (ioctype qb : String) :
    (∀ (lines : List String) (b1 b2 : Backend),
      (∀ q ∈ iocQueries ioctype lines qb, b1 q = b2 q) →
      surveyIoc b1 ioctype lines qb = surveyIoc b2 ioctype lines qb) ∧
    (∀ lines : List String, ∀ line ∈ lines,
      ioctype ++ ":" ++ pyStrip line ++ qb ∈ iocQueries ioctype lines qb) ∧
    (∀ lines : List String, ∀ line ∈ lines, pyStrip line = "" →
      ioctype ++ ":" ++ qb ∈ iocQueries ioctype lines qb) := by
  refine ⟨?_, ?_, ?_⟩
  · intro lines
    induction lines with
    | nil => intro b1 b2 _; rfl
    | cons line rest ih =>
      intro b1 b2 h
      have hq : b1 (ioctype ++ ":" ++ pyStrip line ++ qb) =
          b2 (ioctype ++ ":" ++ pyStrip line ++ qb) := by
        apply h
        simp [iocQueries]
      have hrest : ∀ q ∈ iocQueries ioctype rest qb, b1 q = b2 q := by
        intro q hq'
        apply h
        simp only [iocQueries, List.map_cons, List.mem_cons]
        right
        simpa [iocQueries] using hq'
      simp only [surveyIoc, process_search, pyStrAddOpt]
      rw [hq]
      cases hb : b2 (ioctype ++ ":" ++ pyStrip line ++ qb) with
      | error e => rfl
      | ok procs => rw [ih b1 b2 hrest]
  · intro lines line hline
    simp only [iocQueries, List.mem_map]
    exact ⟨line, hline, rfl⟩
  · intro lines line hline hblank
    simp only [iocQueries, List.mem_map]
    refine ⟨line, hline, ?_⟩
    rw [hblank]
    simp

def c3Backend1 : Backend := fun q =>
  if q = "md5:evil" then .ok [⟨"H", "U", "/p", "c"⟩] else .ok []

def c3Backend2 : Backend := fun q =>
  if q = "md5:evil" then .ok [⟨"H", "U", "/p", "c"⟩] else .error "never consulted"

theorem c3_amended_witness :
    surveyIoc c3Backend1 "md5" ["evil"] "" = surveyIoc c3Backend2 "md5" ["evil"] "" ∧
    "md5:" ++ "" ∈ iocQueries "md5" ["   "] "" :=
  ⟨(c3_amended "md5" "").1 ["evil"] c3Backend1 c3Backend2 (by decide),
   (c3_amended "md5" "").2.2 ["   "] "   " (by decide) (by decide)⟩

/-! ## Claim C4: backend failures -/

/-- C4, as stated, is false: a non-interrupt backend failure is not wrapped
in any `SearchBackendError` — the raw exception propagates uncaught, the
whole run aborts with no rows, and the subsequent source (which produces a
row when surveyed alone) is never attempted. -/
theorem c4_counterexample :
    surveyIoc
      (fun q => if q = "md5:aaa" then .error "ConnectionError: backend unreachable"
        else if q = "md5:bbb" then .ok [⟨"H", "U", "/p", "c"⟩] else .ok [])
      "md5" ["aaa", "bbb"] "" = ([], some "ConnectionError: backend unreachable") ∧
    surveyIoc
      (fun q => if q = "md5:aaa" then .error "ConnectionError: backend unreachable"
        else if q = "md5:bbb" then .ok [⟨"H", "U", "/p", "c"⟩] else .ok [])
      "md5" ["bbb"] "" = ([Row.mk ("h", "u", "/p", "c") "bbb" "ioc"], none) := by
  refine ⟨by decide, by decide⟩

/-- C4 (amended): when the backend raises a non-interrupt exception on a
source's filter, `process_search` propagates that exception unchanged (no
wrapper type carrying the filter exists in the code), the source yields no
rows, and the IOC survey aborts there: the remaining lines are never
surveyed and the run ends with the raw exception. -/
theorem c4_amended (backend : Backend) (ioctype qb line e : String)
    (rest : List String)
    (hb : backend (ioctype ++ ":" ++ pyStrip line ++ qb) = .error e) :
    surveyIoc backend ioctype (line :: rest) qb = ([], some e) ∧
    (∀ q qb2 : String, backend (q ++ qb2) = .error e →
      process_search backend q (some qb2) none = .error e) := by
  constructor
  · simp [surveyIoc, process_search, pyStrAddOpt, hb]
  · intro q qb2 hq
    simp [process_search, pyStrAddOpt, hq]

theorem c4_amended_witness :
    surveyIoc
      (fun q => if q = "md5:ccc start:-5m" then .error "ApiError: 401 Unauthorized"
        else .ok [])
      "md5" ["ccc", "ddd"] " start:-5m" = ([], some "ApiError: 401 Unauthorized") :=
  (c4_amended
    (fun q => if q = "md5:ccc start:-5m" then .error "ApiError: 401 Unauthorized"
      else .ok [])
    "md5" " start:-5m" "ccc" "ApiError: 401 Unauthorized" ["ddd"] (by decide)).1

/-! ## Claim C2: malformed definition files -/

def c2Backend : Backend := fun q =>
  if q = "(process_name:good.exe)" then .ok [⟨"H1", "U1", "/g", "g"⟩]
  else if q = "(process_name:late.exe)" then .ok [⟨"H2", "U2", "/l", "l"⟩]
  else .ok []

def c2FileA : String × Except String Programs :=
  ("alpha", .ok [("good", [("process_name", ["good.exe"])])])

def c2FileB : String × Except String Programs :=
  ("broken", .error "ValueError: No JSON object could be decoded")

def c2FileC : String × Except String Programs :=
  ("gamma", .ok [("late", [("process_name", ["late.exe"])])])

/-- C2, as stated, is false: a malformed definition file in a directory scan
raises an uncaught parse exception (there is no `DefinitionParseError`
anywhere), so the survey aborts — the well-formed file scanned after it,
which produces a row when surveyed alone, produces no rows in the scan. -/
theorem c2_counterexample :
    surveyDefinitions c2Backend [c2FileA, c2FileB, c2FileC] "" =
      ([Row.mk ("h1", "u1", "/g", "g") "good" "alpha"],
       some "ValueError: No JSON object could be decoded") ∧
    surveyDefinitions c2Backend [c2FileC] "" =
      ([Row.mk ("h2", "u2", "/l", "l") "late" "gamma"], none) := by
  refine ⟨by decide, by decide⟩

/-- C2 (amended): if the scan of the files preceding a malformed one
completes cleanly with some rows, the whole scan emits exactly those rows
and then aborts with the raw parse exception: no file after the malformed
one is processed, and the malformed file itself yields no rows. -/
theorem c2_amended (backend : Backend) (qb : String)
    (pre : List (String × Except String Programs)) (source e : String)
    (post : List (String × Except String Programs)) :
    ∀ rows : List Row,
      surveyDefinitions backend pre qb = (rows, none) →
      surveyDefinitions backend (pre ++ (source, .error e) :: post) qb = (rows, some e) := by
  induction pre with
  | nil =>
    intro rows hpre
    simp only [surveyDefinitions] at hpre
    rw [Prod.mk.injEq] at hpre
    rw [List.nil_append, ← hpre.1]
    simp [surveyDefinitions]
  | cons file rest ih =>
    obtain ⟨src, parsed⟩ := file
    intro rows hpre
    cases parsed with
    | error e2 => simp [surveyDefinitions] at hpre
    | ok programs =>
      simp only [surveyDefinitions] at hpre ⊢
      cases hres2 : (surveyPrograms backend src programs qb).2 with
      | some e2 => rw [hres2] at hpre; simp at hpre
      | none =>
        rw [hres2] at hpre
        rw [Prod.mk.injEq] at hpre
        have htail : surveyDefinitions backend rest qb =
            ((surveyDefinitions backend rest qb).1, none) := by
          rw [← hpre.2]
        have hdone := ih (surveyDefinitions backend rest qb).1 htail
        simp [List.append_eq, hdone, ← hpre.1]

theorem c2_amended_witness :
    surveyDefinitions c2Backend [c2FileA, c2FileB, c2FileC] "" =
      ([Row.mk ("h1", "u1", "/g", "g") "good" "alpha"],
       some "ValueError: No JSON object could be decoded") :=
  c2_amended c2Backend "" [c2FileA] "broken" "ValueError: No JSON object could be decoded"
    [c2FileC] [Row.mk ("h1", "u1", "/g", "g") "good" "alpha"] (by decide)

end Surveyor
